import Mathlib

/-!
# Verification of the variable-audit plugin

A shallow embedding of the plugin's analysis modules
(`src/types.ts`, `src/analysis/variables.ts`, `src/analysis/components.ts`,
`src/analysis/nodes.ts`, the audit engine, and `src/services/events.ts`),
together with theorems settling the specification claims.

Modelling conventions:
* JS strings are modelled by Lean `String`; the JS operations the code uses
  (`startsWith`, `includes`, `slice(-n)`, `substring`) are modelled over the
  character list, and JS string truthiness (`s || fallback`) becomes an
  explicit emptiness test.
* The host's asynchronous lookups (`figma.getNodeByIdAsync`,
  `figma.variables.getVariableByIdAsync` + collection lookup as wrapped by
  `getVariableInfo`, and `getMainComponentAsync`) are external collaborators;
  they are modelled as explicit environment functions returning `Option`,
  where `none` covers not-found, thrown and timed-out lookups alike.
* Scene nodes form a finite tree.  A container handed to the analysis entry
  points is modelled as sitting directly on a page, so the parent chain above
  the container contributes no visibility flags and no path segments
  (pages expose no `visible` flag and stop the `getFramePath` walk).
* Numeric auto-layout values (`itemSpacing`, `paddingTop`) are modelled as
  integers; the code only compares them with `0`.  The coverage percentage is
  modelled as a rational number with the source's formula.
-/

/-! ## JS string primitives -/

/-- JS `String.prototype.startsWith`, over the character list. -/
def jsStartsWith (s pre : String) : Bool :=
  pre.data.isPrefixOf s.data

/-- JS `String.prototype.includes` (substring containment). -/
def jsIncludes (s pat : String) : Bool :=
  s.data.tails.any (fun t => pat.data.isPrefixOf t)

/-- JS `s.slice(-n)`: the last `n` characters (the whole string when shorter). -/
def jsSliceLast (s : String) (n : Nat) : String :=
  String.mk (s.data.drop (s.data.length - n))

/-- JS `s.substring(0, n)`: the first `n` characters. -/
def jsTake (s : String) (n : Nat) : String :=
  String.mk (s.data.take n)

/-- JS string length (`s.length`). -/
def jsLength (s : String) : Nat :=
  s.data.length

/-! ## Data model (`src/types.ts`) -/

/-- One entry of a node's raw `boundVariables` map: a scalar variable-alias
reference, or an array of references (per-element bindings). -/
inductive BindingValue where
  | single (id : String)
  | array (ids : List String)
deriving Repr, DecidableEq

/-- The per-node snapshot of every host scene-node field the plugin reads.
Fields that only some Figma node kinds expose (`characters`, style ids,
auto-layout values, `remote`, library info, `key`) are carried by every
modelled node; the code guards them by `type` checks or `"field" in node`
tests that always succeed on the kinds it probes. -/
structure NodeData where
  id : String
  name : String
  type : String
  visible : Bool
  boundVariables : List (String × BindingValue)
  characters : String
  fillStyleId : String
  strokeStyleId : String
  layoutMode : String
  itemSpacing : Int
  paddingTop : Int
  remote : Bool
  libraryName : Option String
  libraryObjName : Option String
  key : String
deriving Repr, DecidableEq

mutual
/-- A host scene node: its data plus its ordered children. -/
inductive SceneNode where
  | mk (data : NodeData) (children : SceneNodeList)
/-- Ordered children of a scene node. -/
inductive SceneNodeList where
  | nil
  | cons (head : SceneNode) (tail : SceneNodeList)
end

def SceneNode.data : SceneNode → NodeData
  | .mk d _ => d

def SceneNode.children : SceneNode → SceneNodeList
  | .mk _ cs => cs

def SceneNodeList.toList : SceneNodeList → List SceneNode
  | .nil => []
  | .cons c t => c :: t.toList

def SceneNodeList.ofList : List SceneNode → SceneNodeList
  | [] => .nil
  | c :: t => .cons c (SceneNodeList.ofList t)

/-- Result of the host's variable lookup as wrapped by `getVariableInfo`
(`src/analysis/variables.ts`): the variable's name and its collection's name.
An environment returning `none` models every failure mode of the wrapped
lookup (variable not found, thrown error, 3-second timeout). -/
structure VarInfo where
  name : String
  collectionName : String
deriving Repr, DecidableEq

/-- Environment standing for `getVariableInfo`: variable id to lookup result. -/
abbrev VarEnv := String → Option VarInfo

/-- `VariableBinding` from `src/types.ts`. -/
structure VariableBinding where
  property : String
  bindingType : String
  arrayIndex : Option Nat
  variableId : String
  variableName : String
  collectionName : String
  isAlias : Bool
  variableType : String
deriving Repr, DecidableEq

/-- `PropertyGroup` from `src/types.ts`: the five catalogue groups plus
`other`. -/
inductive PropertyGroup where
  | colors
  | spacing
  | sizing
  | typography
  | effects
  | other
deriving Repr, DecidableEq

/-- `GroupedBindings` from `src/types.ts`. -/
structure GroupedBindings where
  colors : List VariableBinding
  spacing : List VariableBinding
  sizing : List VariableBinding
  typography : List VariableBinding
  effects : List VariableBinding
  other : List VariableBinding
deriving Repr, DecidableEq

/-- `NodeClassification` from `src/types.ts`. -/
inductive NodeClassification where
  | USES_VARIABLES_LOCAL
  | USES_VARIABLES_GLOBAL
  | USES_VARIABLES_MIXED
  | NO_VARIABLES
deriving Repr, DecidableEq

/-- `LintRule` from `src/types.ts`. -/
inductive LintRule where
  | NoVariables
  | MixedText
  | ConflictingStyleVsVariable
  | MagicNumbers
  | UnresolvableVariable
deriving Repr, DecidableEq

/-- `LintFinding` from `src/types.ts` (severity kept as its literal string;
the optional `details` field is never written by the audit engine and is
omitted). -/
structure LintFinding where
  nodeId : String
  rule : LintRule
  severity : String
  message : String
  property : Option String
deriving Repr, DecidableEq

/-- `DESIGN_PROPERTY_GROUPS` from `src/types.ts`, in object-key insertion
order (colors, spacing, sizing, typography, effects). -/
def DESIGN_PROPERTY_GROUPS : List (PropertyGroup × List String) :=
  [ (.colors,
      ["fills", "strokes", "backgroundColor", "borderColor", "textColor",
       "fill", "stroke"]),
    (.spacing,
      ["paddingTop", "paddingRight", "paddingBottom", "paddingLeft",
       "itemSpacing", "counterAxisSpacing"]),
    (.sizing,
      ["width", "height", "minWidth", "maxWidth", "minHeight", "maxHeight"]),
    (.typography,
      ["fontFamily", "fontWeight", "fontSize", "lineHeight", "letterSpacing",
       "textDecoration"]),
    (.effects,
      ["effects", "shadow", "blur", "opacity", "effectStyleId"]) ]

/-- `DESIGN_PROPERTIES = Object.values(DESIGN_PROPERTY_GROUPS).flat()`. -/
def DESIGN_PROPERTIES : List String :=
  (DESIGN_PROPERTY_GROUPS.map Prod.snd).flatten

/-! ## `src/analysis/variables.ts` -/

/-- `getPropertyGroup`: first catalogue group containing the property, else
the dotted-effect/substring fallbacks, else `other`. -/
def getPropertyGroup (property : String) : PropertyGroup :=
  match DESIGN_PROPERTY_GROUPS.find? (fun gp => gp.2.contains property) with
  | some gp => gp.1
  | none =>
    if jsStartsWith property "effect." ||
       jsStartsWith property "dropShadow." ||
       jsStartsWith property "innerShadow." ||
       jsStartsWith property "layerBlur." ||
       jsStartsWith property "backgroundBlur." ||
       jsIncludes property "SHADOW" ||
       jsIncludes property "BLUR" then
      .effects
    else
      .other

/-- The placeholder name substituted when a variable lookup fails:
`` `[Variable ID: ${id.slice(-8)}]` ``. -/
def unresolvablePlaceholder (id : String) : String :=
  "[Variable ID: " ++ jsSliceLast id 8 ++ "]"

/-- `varInfo?.name || placeholder` (JS `||`: empty string falls through). -/
def resolvedVariableName (env : VarEnv) (id : String) : String :=
  match env id with
  | some vi => if vi.name = "" then unresolvablePlaceholder id else vi.name
  | none => unresolvablePlaceholder id

/-- `varInfo?.collectionName || "Unknown Collection"`. -/
def resolvedCollectionName (env : VarEnv) (id : String) : String :=
  match env id with
  | some vi => if vi.collectionName = "" then "Unknown Collection"
               else vi.collectionName
  | none => "Unknown Collection"

/-- The binding record built for a scalar (`bindingType: "normal"`) entry. -/
def mkNormalBinding (env : VarEnv) (prop id : String) : VariableBinding :=
  { property := prop
    bindingType := "normal"
    arrayIndex := none
    variableId := id
    variableName := resolvedVariableName env id
    collectionName := resolvedCollectionName env id
    isAlias := false
    variableType := "design" }

/-- The binding record built for one element of an array entry. -/
def mkArrayBinding (env : VarEnv) (prop : String) (i : Nat) (id : String) :
    VariableBinding :=
  { property := prop
    bindingType := "array"
    arrayIndex := some i
    variableId := id
    variableName := resolvedVariableName env id
    collectionName := resolvedCollectionName env id
    isAlias := false
    variableType := "design" }

/-- The array loop of `extractVariableBindings`: one binding per element,
skipping elements whose `id` is falsy (empty). -/
def extractArrayBindings (env : VarEnv) (prop : String) :
    Nat → List String → List VariableBinding
  | _, [] => []
  | i, id :: rest =>
    (if id = "" then [] else [mkArrayBinding env prop i id])
      ++ extractArrayBindings env prop (i + 1) rest

/-- The `for (const prop of DESIGN_PROPERTIES)` loop of
`extractVariableBindings`. -/
def extractForProps (env : VarEnv) (d : NodeData) :
    List String → List VariableBinding
  | [] => []
  | prop :: rest =>
    (match d.boundVariables.lookup prop with
     | none => []
     | some (.single id) => [mkNormalBinding env prop id]
     | some (.array ids) => extractArrayBindings env prop 0 ids)
      ++ extractForProps env d rest

/-- `extractVariableBindings`: ordered binding list of a node, property
iteration order first, array index second. -/
def extractVariableBindings (env : VarEnv) (d : NodeData) :
    List VariableBinding :=
  extractForProps env d DESIGN_PROPERTIES

/-- `groupBindings`: fold every binding into its category bucket. -/
def groupBindings (bindings : List VariableBinding) : GroupedBindings :=
  bindings.foldl
    (fun g b =>
      match getPropertyGroup b.property with
      | .colors => { g with colors := g.colors ++ [b] }
      | .spacing => { g with spacing := g.spacing ++ [b] }
      | .sizing => { g with sizing := g.sizing ++ [b] }
      | .typography => { g with typography := g.typography ++ [b] }
      | .effects => { g with effects := g.effects ++ [b] }
      | .other => { g with other := g.other ++ [b] })
    { colors := [], spacing := [], sizing := [], typography := []
      effects := [], other := [] }

/-! ## `src/analysis/components.ts` -/

/-- What `getMainComponentAsync` resolves for an instance (the fields the
code probes on the main component).  `libraryName` / `libraryObjName` model
the duck-typed `componentAny.libraryName` / `componentAny.library.name`
probes. -/
structure MainCompRec where
  id : String
  name : String
  remote : Bool
  libraryName : Option String
  libraryObjName : Option String
  key : String
deriving Repr, DecidableEq

/-- Environment standing for `node.getMainComponentAsync()`: instance node id
to its resolved main component (`none` = no main component / resolution
threw). -/
abbrev MainCompEnv := String → Option MainCompRec

/-- `ComponentInfo` from `src/types.ts`. -/
structure ComponentInfo where
  id : String
  name : String
  mainComponentId : String
  mainComponentName : String
  isRemote : Bool
  remoteLibrary : Option String
deriving Repr, DecidableEq

/-- The best-effort remote-library label: a truthy (non-empty) string
`libraryName` field wins; else a `library` object with a string `name`
field; else the hard-coded fallback label (the `componentAny.key` branch and
the final `else` assign the same literal). -/
def remoteLibraryLabel (libraryName libraryObjName : Option String)
    (_key : String) : String :=
  let rest :=
    match libraryObjName with
    | some t => t
    | none => "Design System - UI kit 2.0"
  match libraryName with
  | some s => if s = "" then rest else s
  | none => rest

/-- `analyzeComponentInfo` for an INSTANCE node. -/
def analyzeComponentInfo (getMain : MainCompEnv) (d : NodeData) :
    Option ComponentInfo :=
  match getMain d.id with
  | none => none
  | some mc =>
    some
      { id := d.id
        name := d.name
        mainComponentId := mc.id
        mainComponentName := mc.name
        isRemote := mc.remote
        remoteLibrary :=
          if mc.remote then
            some (remoteLibraryLabel mc.libraryName mc.libraryObjName mc.key)
          else none }

/-- `analyzeMainComponentInfo` for a COMPONENT definition node (identity
collapses: `mainComponentId == own id`). -/
def analyzeMainComponentInfo (d : NodeData) : Option ComponentInfo :=
  some
    { id := d.id
      name := d.name
      mainComponentId := d.id
      mainComponentName := d.name
      isRemote := d.remote
      remoteLibrary :=
        if d.remote then
          some (remoteLibraryLabel d.libraryName d.libraryObjName d.key)
        else none }

/-! ## `src/analysis/nodes.ts` -/

/-- `NodeInfo` from `src/types.ts` (`boundVariableDetails` is always written
by `analyzeNode`, so it is carried as a plain string). -/
structure NodeInfo where
  id : String
  name : String
  type : String
  characters : Option String
  variableBindings : List VariableBinding
  groupedBindings : GroupedBindings
  hasBoundVariables : Bool
  boundVariableDetails : String
  propertyDetails : List String
  componentInfo : Option ComponentInfo
deriving Repr, DecidableEq

/-- `FrameInfo` from `src/types.ts`. -/
structure FrameInfo where
  id : String
  name : String
  totalNodes : Nat
  textNodesCount : Nat
  instanceNodesCount : Nat
  componentNodesCount : Nat
  remoteComponentsCount : Nat
  localComponentsCount : Nat
  nodes : List NodeInfo
deriving Repr, DecidableEq

/-- `SectionAnalysis` from `src/types.ts`. -/
structure SectionAnalysis where
  sectionId : String
  sectionName : String
  totalFrames : Nat
  totalTextNodes : Nat
  totalNodes : Nat
  totalInstanceNodes : Nat
  totalComponentNodes : Nat
  totalRemoteComponents : Nat
  totalLocalComponents : Nat
  frames : List FrameInfo
deriving Repr, DecidableEq

/-- `frame.findAll()`: every strict descendant of the frame, pre-order,
paired with its ancestor chain below the frame root (nearest ancestor
first).  That chain is exactly what the `while (parent && parent !== frame)`
loops of the visibility and nested-component filters walk. -/
def findAllList (anc : List NodeData) : SceneNodeList → List (NodeData × List NodeData)
  | .nil => []
  | .cons (.mk d cs) t =>
    (d, anc) :: (findAllList (d :: anc) cs ++ findAllList anc t)

def findAllInFrame (frame : SceneNode) : List (NodeData × List NodeData) :=
  findAllList [] frame.children

/-- `isNodeEffectivelyVisible(node, frame)` for a strict descendant: the node
itself and every ancestor up to (excluding) the frame root must be visible. -/
def effectivelyVisible (p : NodeData × List NodeData) : Bool :=
  p.1.visible && p.2.all (·.visible)

/-- The nested-component exclusion of `analyzeContainerContent`: an ancestor
below the frame root that is a COMPONENT or INSTANCE with a non-empty raw
`boundVariables` map excludes the node. -/
def nestedComponentExcluded (p : NodeData × List NodeData) : Bool :=
  p.2.any (fun a =>
    (a.type == "COMPONENT" || a.type == "INSTANCE") &&
      !a.boundVariables.isEmpty)

/-- The display string for one binding in `analyzeNode`. -/
def bindingDetail (b : VariableBinding) : String :=
  (if b.bindingType = "array" then
      b.property ++ "[" ++
        (match b.arrayIndex with
         | some i => Nat.repr i
         | none => "undefined") ++ "]"
    else b.property)
    ++ ": Variable (" ++ b.variableName ++ " from " ++ b.collectionName ++ ")"

/-- `analyzeNode`: the per-node snapshot assembled during traversal. -/
def analyzeNode (getMain : MainCompEnv) (env : VarEnv) (d : NodeData) :
    NodeInfo :=
  let variableBindings := extractVariableBindings env d
  let hasBoundVariables := decide (0 < variableBindings.length)
  let groupedBindings := groupBindings variableBindings
  let propertyDetails :=
    if 0 < variableBindings.length then variableBindings.map bindingDetail
    else ["No variable bindings found"]
  { id := d.id
    name := d.name
    type := d.type
    characters :=
      if d.type = "TEXT" then
        some (if d.characters = "" then ""
              else jsTake d.characters 50 ++
                (if 50 < jsLength d.characters then "..." else ""))
      else none
    variableBindings := variableBindings
    groupedBindings := groupedBindings
    hasBoundVariables := hasBoundVariables
    boundVariableDetails := String.intercalate ", " propertyDetails
    propertyDetails := propertyDetails
    componentInfo :=
      if d.type = "INSTANCE" then analyzeComponentInfo getMain d
      else if d.type = "COMPONENT" then analyzeMainComponentInfo d
      else none }

/-- Per-frame body of `analyzeContainerContent`'s frame loop. -/
def analyzeFrame (getMain : MainCompEnv) (env : VarEnv) (frame : SceneNode) :
    FrameInfo :=
  let allNodes := findAllInFrame frame
  let visibleNodes :=
    allNodes.filter (fun p =>
      effectivelyVisible p && !nestedComponentExcluded p)
  let textNodes := visibleNodes.filter (fun p => p.1.type == "TEXT")
  let instanceNodes := visibleNodes.filter (fun p => p.1.type == "INSTANCE")
  let componentNodes := visibleNodes.filter (fun p => p.1.type == "COMPONENT")
  let remoteComponentsCount :=
    (instanceNodes.filter
        (fun p => (getMain p.1.id).map (·.remote) == some true)).length
      + (componentNodes.filter (fun p => p.1.remote)).length
  let localComponentsCount :=
    (instanceNodes.filter
        (fun p => (getMain p.1.id).map (·.remote) == some false)).length
      + (componentNodes.filter (fun p => !p.1.remote)).length
  { id := frame.data.id
    name := frame.data.name
    totalNodes := visibleNodes.length
    textNodesCount := textNodes.length
    instanceNodesCount := instanceNodes.length
    componentNodesCount := componentNodes.length
    remoteComponentsCount := remoteComponentsCount
    localComponentsCount := localComponentsCount
    nodes := visibleNodes.map (fun p => analyzeNode getMain env p.1) }

/-- The frame set of `analyzeContainerContent`: a SECTION's direct FRAME
children, or the FRAME container itself. -/
def analyzeFrameChildren (container : SceneNode) : List SceneNode :=
  if container.data.type = "SECTION" then
    container.children.toList.filter (fun c => c.data.type == "FRAME")
  else
    [container]

/-- `analyzeContainerContent` after successful container resolution. -/
def analyzeResolved (getMain : MainCompEnv) (env : VarEnv)
    (container : SceneNode) : SectionAnalysis :=
  let frames :=
    (analyzeFrameChildren container).map (analyzeFrame getMain env)
  { sectionId := container.data.id
    sectionName := container.data.name
    totalFrames := frames.length
    totalTextNodes := (frames.map (·.textNodesCount)).sum
    totalNodes := (frames.map (·.totalNodes)).sum
    totalInstanceNodes := (frames.map (·.instanceNodesCount)).sum
    totalComponentNodes := (frames.map (·.componentNodesCount)).sum
    totalRemoteComponents := (frames.map (·.remoteComponentsCount)).sum
    totalLocalComponents := (frames.map (·.localComponentsCount)).sum
    frames := frames }

/-- Environment standing for `figma.getNodeByIdAsync`. -/
abbrev NodeEnv := String → Option SceneNode

/-- `analyzeContainerContent`: resolve the container id; `null` when it does
not resolve or is neither SECTION nor FRAME; otherwise the rollup.  The
surrounding `try/catch` never fires in this total model, so the function
always returns a value. -/
def analyzeContainerContent (nodeEnv : NodeEnv) (getMain : MainCompEnv)
    (env : VarEnv) (containerId : String) : Option SectionAnalysis :=
  match nodeEnv containerId with
  | none => none
  | some container =>
    if container.data.type = "SECTION" ∨ container.data.type = "FRAME" then
      some (analyzeResolved getMain env container)
    else none

/-! ## Audit engine (`src/analysis/audit.ts`, file `part_000`) -/

/-- `AUDITABLE_NODE_TYPES`. -/
def AUDITABLE_NODE_TYPES : List String :=
  ["TEXT", "FRAME", "RECTANGLE", "COMPONENT", "INSTANCE", "ELLIPSE",
   "POLYGON", "STAR", "VECTOR", "LINE"]

/-- `AuditSummary` from `src/types.ts`. -/
structure AuditSummary where
  totalAuditableNodes : Nat
  withVariablesCount : Nat
  withLocalVariablesCount : Nat
  withGlobalVariablesCount : Nat
  withoutVariablesCount : Nat
deriving Repr, DecidableEq

/-- `AuditableNode` from `src/types.ts`. -/
structure AuditableNode where
  id : String
  name : String
  type : String
  framePath : String
  classification : NodeClassification
  variableBindings : List VariableBinding
  lintFindings : List LintFinding
  hasLocalVariables : Bool
  hasGlobalVariables : Bool
deriving Repr, DecidableEq

/-- `AuditResult` from `src/types.ts` (coverage as an exact rational). -/
structure AuditResult where
  containerId : String
  containerName : String
  summary : AuditSummary
  withVariables : List AuditableNode
  withoutVariables : List AuditableNode
  lintFindings : List LintFinding
  coveragePercentage : ℚ
deriving Repr, DecidableEq

/-- Eligibility test of `collectAuditableNodes`'s `traverse`: auditable type
and effectively visible.  `ancVis` is the ancestor chain the
`while (parent && parent !== rootFrame)` loop of
`isNodeEffectivelyVisible` walks for this node. -/
def auditEligible (d : NodeData) (ancVis : List NodeData) : Bool :=
  AUDITABLE_NODE_TYPES.contains d.type && d.visible && ancVis.all (·.visible)

/-- `traverse` below the root: pre-order, keeping eligible nodes.  `ancVis`
is the chain checked for visibility (ancestors strictly between the node and
the root frame — the parent-pointer walk stops at the first occurrence of
the root frame); `ancFull` is the full ancestor chain inside the container
(nearest first), kept for `getFramePath`. -/
def collectGoList (ancVis ancFull : List NodeData) :
    SceneNodeList → List (NodeData × List NodeData)
  | .nil => []
  | .cons (.mk d cs) t =>
    (if auditEligible d ancVis then [(d, ancFull)] else [])
      ++ collectGoList (d :: ancVis) (d :: ancFull) cs
      ++ collectGoList ancVis ancFull t

/-- `traverse(root, rootFrame)` with `root = rootFrame`: for the root frame
itself the parent-pointer walk never meets `rootFrame` again, so it climbs
the whole chain above (`ancAbove`); for the root's direct children the walk
stops immediately, so their checked chain is empty. -/
def collectAuditRoot (root : SceneNode) (ancAbove : List NodeData) :
    List (NodeData × List NodeData) :=
  match root with
  | .mk d cs =>
    (if auditEligible d ancAbove then [(d, ancAbove)] else [])
      ++ collectGoList [] (d :: ancAbove) cs

/-- The SECTION branch of `collectAuditableNodes`: traverse each direct
FRAME child (the section itself sits on the checked chain of each frame
root). -/
def collectSectionFrames (sectionD : NodeData) :
    SceneNodeList → List (NodeData × List NodeData)
  | .nil => []
  | .cons ch t =>
    (if ch.data.type == "FRAME" then collectAuditRoot ch [sectionD] else [])
      ++ collectSectionFrames sectionD t

/-- `collectAuditableNodes`. -/
def collectAuditableNodes (container : SceneNode) :
    List (NodeData × List NodeData) :=
  if container.data.type = "SECTION" then
    collectSectionFrames container.data container.children
  else
    collectAuditRoot container []

/-- `getFramePath`: FRAME/SECTION ancestor names, outermost first, joined
with `" > "`; the JS `|| "Root"` replaces an empty joined string. -/
def getFramePath (anc : List NodeData) : String :=
  let names :=
    ((anc.filter (fun a => a.type == "FRAME" || a.type == "SECTION")).reverse).map
      (·.name)
  let joined := String.intercalate " > " names
  if joined = "" then "Root" else joined

/-- `analyzeVariableTypes` (simplified in the source): every bound variable
counts as local, none as global. -/
def analyzeVariableTypes (bindings : List VariableBinding) : Bool × Bool :=
  (decide (0 < bindings.length), false)

/-- `classifyNode`. -/
def classifyNode (bindings : List VariableBinding)
    (hasLocal hasGlobal : Bool) : NodeClassification :=
  if bindings.length = 0 then .NO_VARIABLES
  else if hasLocal && hasGlobal then .USES_VARIABLES_MIXED
  else if hasGlobal then .USES_VARIABLES_GLOBAL
  else .USES_VARIABLES_LOCAL

/-- The MixedText finding record. -/
def mixedTextFinding (d : NodeData) : LintFinding :=
  { nodeId := d.id
    rule := .MixedText
    severity := "warning"
    message := "Text node has mixed variable-bound and manual styling"
    property := none }

/-- The fixed probe set of `checkMixedText`. -/
def textProbeProperties : List String :=
  ["fontSize", "fontFamily", "fontWeight", "fills"]

/-- `checkMixedText` (TEXT nodes): requires non-empty `characters`; flags
when some probe property is bound and some is not. -/
def checkMixedText (d : NodeData) (bindings : List VariableBinding) :
    List LintFinding :=
  if d.characters ≠ "" then
    let boundProperties := bindings.map (·.property)
    let hasBoundText :=
      textProbeProperties.any (fun p => boundProperties.contains p)
    let hasUnboundText :=
      textProbeProperties.any (fun p => !boundProperties.contains p)
    if hasBoundText && hasUnboundText then [mixedTextFinding d] else []
  else []

/-- `checkStyleConflicts`: a non-empty legacy fill/stroke style id without a
matching `fills`/`strokes` binding. -/
def checkStyleConflicts (d : NodeData) (bindings : List VariableBinding) :
    List LintFinding :=
  (if d.fillStyleId ≠ "" then
      if bindings.any (fun b => b.property == "fills") then []
      else
        [{ nodeId := d.id
           rule := .ConflictingStyleVsVariable
           severity := "info"
           message := "Node uses legacy fill style instead of color variables"
           property := some "fills" }]
    else [])
    ++
    (if d.strokeStyleId ≠ "" then
      if bindings.any (fun b => b.property == "strokes") then []
      else
        [{ nodeId := d.id
           rule := .ConflictingStyleVsVariable
           severity := "info"
           message := "Node uses legacy stroke style instead of color variables"
           property := some "strokes" }]
    else [])

/-- The spacing-property set of `checkMagicNumbers`. -/
def magicSpacingProperties : List String :=
  ["paddingTop", "paddingRight", "paddingBottom", "paddingLeft", "itemSpacing"]

/-- `checkMagicNumbers` (FRAME nodes): in auto-layout, each unbound spacing
property whose (simplified) numeric value is positive is flagged
(`paddingTop` stands in for every padding side). -/
def checkMagicNumbers (d : NodeData) (bindings : List VariableBinding) :
    List LintFinding :=
  if d.layoutMode ≠ "NONE" then
    let boundProperties := bindings.map (·.property)
    magicSpacingProperties.filterMap fun prop =>
      if boundProperties.contains prop then none
      else
        let hasValue :=
          (prop == "itemSpacing" && decide (0 < d.itemSpacing)) ||
            (jsStartsWith prop "padding" && decide (0 < d.paddingTop))
        if hasValue then
          some
            { nodeId := d.id
              rule := .MagicNumbers
              severity := "warning"
              message :=
                "Auto-layout " ++ prop ++
                  " uses magic number instead of spacing variable"
              property := some prop }
        else none
  else []

/-- The test of `checkUnresolvableVariables` (`startsWith("[Variable ID:")`):
a resolved name that looks like the extractor's unresolvable placeholder. -/
def isUnresolvedPlaceholderName (s : String) : Bool :=
  jsStartsWith s "[Variable ID:"

/-- The finding record of `checkUnresolvableVariables`.  Its `nodeId` is the
literal empty string — the source comment says `// Will be set by caller`,
but no caller ever sets it. -/
def unresolvableFindingFor (b : VariableBinding) : LintFinding :=
  { nodeId := ""
    rule := .UnresolvableVariable
    severity := "error"
    message := "Variable reference cannot be resolved: " ++ b.variableName
    property := some b.property }

/-- `checkUnresolvableVariables`. -/
def checkUnresolvableVariables (bindings : List VariableBinding) :
    List LintFinding :=
  bindings.filterMap fun b =>
    if isUnresolvedPlaceholderName b.variableName then
      some (unresolvableFindingFor b)
    else none

/-- The NoVariables finding record. -/
def noVariablesFinding (d : NodeData) : LintFinding :=
  { nodeId := d.id
    rule := .NoVariables
    severity := "warning"
    message := "Node has no variable bindings - using manual values only"
    property := none }

/-- `applyLintRules`, in the source's rule order. -/
def applyLintRules (d : NodeData) (bindings : List VariableBinding) :
    List LintFinding :=
  (if bindings.length = 0 then [noVariablesFinding d] else [])
    ++ (if d.type = "TEXT" then checkMixedText d bindings else [])
    ++ checkStyleConflicts d bindings
    ++ (if d.type = "FRAME" then checkMagicNumbers d bindings else [])
    ++ checkUnresolvableVariables bindings

/-- `processNode`: extract, classify, path, lint. -/
def processNode (env : VarEnv) (p : NodeData × List NodeData) :
    AuditableNode :=
  let d := p.1
  let variableBindings := extractVariableBindings env d
  let framePath := getFramePath p.2
  let hasLocal := (analyzeVariableTypes variableBindings).1
  let hasGlobal := (analyzeVariableTypes variableBindings).2
  let classification := classifyNode variableBindings hasLocal hasGlobal
  let lintFindings := applyLintRules d variableBindings
  { id := d.id
    name := d.name
    type := d.type
    framePath := framePath
    classification := classification
    variableBindings := variableBindings
    lintFindings := lintFindings
    hasLocalVariables := hasLocal
    hasGlobalVariables := hasGlobal }

/-- `calculateSummary`. -/
def calculateSummary (nodes : List AuditableNode) : AuditSummary :=
  let totalAuditableNodes := nodes.length
  let withVariablesNodes :=
    nodes.filter (fun n => !(n.classification == .NO_VARIABLES))
  let withLocalOnly :=
    nodes.filter (fun n => n.classification == .USES_VARIABLES_LOCAL)
  let withGlobalOnly :=
    nodes.filter (fun n => n.classification == .USES_VARIABLES_GLOBAL)
  let withMixed :=
    nodes.filter (fun n => n.classification == .USES_VARIABLES_MIXED)
  { totalAuditableNodes := totalAuditableNodes
    withVariablesCount := withVariablesNodes.length
    withLocalVariablesCount := withLocalOnly.length + withMixed.length
    withGlobalVariablesCount := withGlobalOnly.length + withMixed.length
    withoutVariablesCount := totalAuditableNodes - withVariablesNodes.length }

/-- The node list the audit engine actually processes: the collected
candidates capped at the first 50 (`allNodes.slice(0, 50)`), each run
through `processNode`. -/
def auditProcessedNodes (env : VarEnv) (container : SceneNode) :
    List AuditableNode :=
  ((collectAuditableNodes container).take 50).map (processNode env)

/-- `auditContainer` after successful container resolution. -/
def auditResolved (env : VarEnv) (container : SceneNode) : AuditResult :=
  let processedNodes := auditProcessedNodes env container
  let withVariables :=
    processedNodes.filter (fun n => !(n.classification == .NO_VARIABLES))
  let withoutVariables :=
    processedNodes.filter (fun n => n.classification == .NO_VARIABLES)
  let allLintFindings := (processedNodes.map (·.lintFindings)).flatten
  let summary := calculateSummary processedNodes
  let coveragePercentage : ℚ :=
    if 0 < summary.totalAuditableNodes then
      (summary.withVariablesCount : ℚ) / (summary.totalAuditableNodes : ℚ) * 100
    else 0
  { containerId := container.data.id
    containerName := container.data.name
    summary := summary
    withVariables := withVariables
    withoutVariables := withoutVariables
    lintFindings := allLintFindings
    coveragePercentage := coveragePercentage }

/-- `auditContainer`: resolve the container id; `null` when it does not
resolve or is neither SECTION nor FRAME; otherwise the audit result.  As in
`analyzeContainerContent`, the `try/catch` never fires in this total model. -/
def auditContainer (nodeEnv : NodeEnv) (env : VarEnv)
    (containerId : String) : Option AuditResult :=
  match nodeEnv containerId with
  | none => none
  | some container =>
    if container.data.type = "SECTION" ∨ container.data.type = "FRAME" then
      some (auditResolved env container)
    else none

/-! ## `src/services/events.ts` -/

/-- The `node-jumped` message posted to the UI. -/
structure NodeJumpedMsg where
  type : String
  nodeName : String
  nodeType : String
deriving Repr, DecidableEq

/-- The host state `jumpToNode` can mutate: the current selection. -/
structure PluginState where
  selection : List SceneNode

/-- `jumpToNode`: unknown id posts an `Unknown`/`Unknown` response and leaves
the selection alone; a resolved node becomes the sole selection and its
name/type are posted.  Returns the new host state and the posted messages. -/
def jumpToNode (nodeEnv : NodeEnv) (st : PluginState) (nodeId : String) :
    PluginState × List NodeJumpedMsg :=
  match nodeEnv nodeId with
  | none =>
    (st, [{ type := "node-jumped", nodeName := "Unknown",
            nodeType := "Unknown" }])
  | some n =>
    ({ selection := [n] },
     [{ type := "node-jumped", nodeName := n.data.name,
        nodeType := n.data.type }])

/-! ## Helper lemmas -/

lemma filterMap_if_eq_map_filter (p : α → Bool) (f : α → β) :
    ∀ l : List α,
      l.filterMap (fun a => if p a then some (f a) else none)
        = (l.filter p).map f := by
  intro l
  induction l with
  | nil => rfl
  | cons a t ih =>
    by_cases h : p a = true
    · simp [List.filterMap_cons, List.filter_cons, h, ih]
    · simp only [Bool.not_eq_true] at h
      simp [List.filterMap_cons, List.filter_cons, h, ih]

/-- The failure placeholder always passes the `startsWith("[Variable ID:")`
test. -/
lemma placeholder_matches (id : String) :
    isUnresolvedPlaceholderName (unresolvablePlaceholder id) = true := by
  have hsp : "[Variable ID: ".data = "[Variable ID:".data ++ [' '] := by decide
  simp only [isUnresolvedPlaceholderName, unresolvablePlaceholder,
    jsStartsWith, String.data_append, hsp, List.append_assoc]
  rw [List.isPrefixOf_iff_prefix]
  exact ⟨_, rfl⟩

/-- Every binding emitted by the array loop has its `variableName` and
`collectionName` resolved from its own `variableId`. -/
lemma mem_extractArrayBindings {env : VarEnv} {prop : String} {b : VariableBinding} :
    ∀ {i : Nat} {ids : List String}, b ∈ extractArrayBindings env prop i ids →
      b.variableName = resolvedVariableName env b.variableId ∧
        b.collectionName = resolvedCollectionName env b.variableId := by
  intro i ids
  induction ids generalizing i with
  | nil => intro h; simp [extractArrayBindings] at h
  | cons id rest ih =>
    intro h
    simp only [extractArrayBindings, List.mem_append] at h
    rcases h with h | h
    · by_cases hid : id = ""
      · simp [hid] at h
      · simp [hid, List.mem_singleton] at h
        subst h
        exact ⟨rfl, rfl⟩
    · exact ih h

/-- Every binding emitted by the extractor has its `variableName` and
`collectionName` resolved from its own `variableId`. -/
lemma mem_extract_resolved {env : VarEnv} {d : NodeData} {b : VariableBinding}
    (h : b ∈ extractVariableBindings env d) :
    b.variableName = resolvedVariableName env b.variableId ∧
      b.collectionName = resolvedCollectionName env b.variableId := by
  unfold extractVariableBindings at h
  revert h
  generalize DESIGN_PROPERTIES = props
  induction props with
  | nil => intro h; simp [extractForProps] at h
  | cons prop rest ih =>
    intro h
    simp only [extractForProps, List.mem_append] at h
    rcases h with h | h
    · revert h
      cases hl : d.boundVariables.lookup prop with
      | none => intro h; simp at h
      | some v =>
        cases v with
        | single id =>
          intro h
          simp only [List.mem_singleton] at h
          subst h
          exact ⟨rfl, rfl⟩
        | array ids =>
          intro h
          exact mem_extractArrayBindings h
    · exact ih h

/-- Findings of `checkMixedText` are exactly the mixed-text record. -/
lemma mem_checkMixedText {d : NodeData} {bs : List VariableBinding}
    {f : LintFinding} (h : f ∈ checkMixedText d bs) :
    f = mixedTextFinding d := by
  unfold checkMixedText at h
  split at h
  · simp only at h
    split at h
    · simpa using h
    · simp at h
  · simp at h

/-- Findings of `checkStyleConflicts` carry the node's id and the
ConflictingStyleVsVariable rule. -/
lemma mem_checkStyleConflicts {d : NodeData} {bs : List VariableBinding}
    {f : LintFinding} (h : f ∈ checkStyleConflicts d bs) :
    f.nodeId = d.id ∧ f.rule = .ConflictingStyleVsVariable := by
  unfold checkStyleConflicts at h
  simp only [List.mem_append] at h
  rcases h with h | h <;>
  · split at h
    · split at h
      · simp at h
      · simp only [List.mem_singleton] at h
        subst h
        exact ⟨rfl, rfl⟩
    · simp at h

/-- Findings of `checkMagicNumbers` carry the node's id and the MagicNumbers
rule. -/
lemma mem_checkMagicNumbers {d : NodeData} {bs : List VariableBinding}
    {f : LintFinding} (h : f ∈ checkMagicNumbers d bs) :
    f.nodeId = d.id ∧ f.rule = .MagicNumbers := by
  unfold checkMagicNumbers at h
  split at h
  · simp only [List.mem_filterMap] at h
    obtain ⟨prop, _, hp⟩ := h
    split at hp
    · simp at hp
    · split at hp
      · simp only [Option.some.injEq] at hp
        subst hp
        exact ⟨rfl, rfl⟩
      · simp at hp
  · simp at h

/-- Findings of `checkUnresolvableVariables` carry an empty node id and the
UnresolvableVariable rule. -/
lemma mem_checkUnresolvableVariables {bs : List VariableBinding}
    {f : LintFinding} (h : f ∈ checkUnresolvableVariables bs) :
    f.nodeId = "" ∧ f.rule = .UnresolvableVariable := by
  unfold checkUnresolvableVariables at h
  simp only [List.mem_filterMap] at h
  obtain ⟨b, _, hb⟩ := h
  split at hb
  · simp only [Option.some.injEq] at hb
    subst hb
    exact ⟨rfl, rfl⟩
  · simp at hb

/-- Every finding of `applyLintRules` carries either the audited node's id or
the empty string (the latter exactly for UnresolvableVariable findings). -/
lemma mem_applyLintRules_nodeId {d : NodeData} {bs : List VariableBinding}
    {f : LintFinding} (h : f ∈ applyLintRules d bs) :
    f.nodeId = d.id ∨ f.nodeId = "" := by
  unfold applyLintRules at h
  simp only [List.mem_append] at h
  rcases h with ((((h | h) | h) | h) | h)
  · split at h
    · simp only [List.mem_singleton] at h
      subst h
      exact Or.inl rfl
    · simp at h
  · split at h
    · exact Or.inl (by rw [mem_checkMixedText h]; rfl)
    · simp at h
  · exact Or.inl (mem_checkStyleConflicts h).1
  · split at h
    · exact Or.inl (mem_checkMagicNumbers h).1
    · simp at h
  · exact Or.inr (mem_checkUnresolvableVariables h).1

/-! ## Demo fixtures (concrete inputs for witnesses and counterexamples) -/

/-- A variable environment in which every lookup fails. -/
def envNone : VarEnv := fun _ => none

/-- A main-component environment in which every resolution fails. -/
def mainNone : MainCompEnv := fun _ => none

/-- Template node: a plain visible rectangle with no bindings. -/
def baseData : NodeData :=
  { id := "x", name := "X", type := "RECTANGLE", visible := true,
    boundVariables := [], characters := "", fillStyleId := "",
    strokeStyleId := "", layoutMode := "NONE", itemSpacing := 0,
    paddingTop := 0, remote := false, libraryName := none,
    libraryObjName := none, key := "" }

/-- A childless scene node. -/
def leafNode (d : NodeData) : SceneNode := .mk d .nil

/-- A rectangle with one `fills` binding whose variable cannot be resolved. -/
def boundRect : NodeData :=
  { baseData with
    id := "n1"
    boundVariables := [("fills", .single "varid9999")] }

/-! ## C8 — property classifier -/

/-- C8: `getPropertyGroup` is a total deterministic function (it is a plain
Lean function) mapping "paddingLeft" to spacing, "fontWeight" to typography,
"dropShadow.radius" to effects and "customFooBar" to other; and every
property absent from the five catalogue sets that matches neither an effect
prefix nor the "SHADOW"/"BLUR" substring fallback maps to other. -/
theorem C8_property_classifier :
    getPropertyGroup "paddingLeft" = .spacing ∧
    getPropertyGroup "fontWeight" = .typography ∧
    getPropertyGroup "dropShadow.radius" = .effects ∧
    getPropertyGroup "customFooBar" = .other ∧
    ∀ p : String,
      (∀ gp ∈ DESIGN_PROPERTY_GROUPS, p ∉ gp.2) →
      jsStartsWith p "effect." = false →
      jsStartsWith p "dropShadow." = false →
      jsStartsWith p "innerShadow." = false →
      jsStartsWith p "layerBlur." = false →
      jsStartsWith p "backgroundBlur." = false →
      jsIncludes p "SHADOW" = false →
      jsIncludes p "BLUR" = false →
      getPropertyGroup p = .other := by
  refine ⟨by decide, by decide, by decide, by decide, ?_⟩
  intro p hmem h1 h2 h3 h4 h5 h6 h7
  have hfind :
      DESIGN_PROPERTY_GROUPS.find? (fun gp => gp.2.contains p) = none := by
    rw [List.find?_eq_none]
    intro gp hgp hc
    obtain ⟨a, ha, hae⟩ := List.contains_iff_exists_mem_beq.mp hc
    rw [beq_iff_eq] at hae
    exact hmem gp hgp (hae ▸ ha)
  unfold getPropertyGroup
  rw [hfind]
  simp [h1, h2, h3, h4, h5, h6, h7]

/-- Witness for C8 at the concrete property "zzCustom". -/
theorem C8_property_classifier_witness :
    (∀ gp ∈ DESIGN_PROPERTY_GROUPS, "zzCustom" ∉ gp.2) ∧
      getPropertyGroup "zzCustom" = .other :=
  ⟨by decide,
    C8_property_classifier.2.2.2.2 "zzCustom" (by decide) (by decide)
      (by decide) (by decide) (by decide) (by decide) (by decide) (by decide)⟩

/-! ## C3 — unresolvable-variable findings -/

/-- C3: `checkUnresolvableVariables` emits exactly one UnresolvableVariable
finding per binding whose resolved name matches the unresolvable-placeholder
pattern (`startsWith("[Variable ID:")`) and none for any other binding; and
whenever the extractor's variable lookup fails, the binding it emits carries
exactly the placeholder name `[Variable ID: <last 8 chars of the id>]`,
which matches that pattern. -/
theorem C3_unresolvable_iff_placeholder :
    (∀ bindings : List VariableBinding,
        checkUnresolvableVariables bindings =
          ((bindings.filter
              (fun b => isUnresolvedPlaceholderName b.variableName)).map
            unresolvableFindingFor)) ∧
    (∀ (env : VarEnv) (d : NodeData) (b : VariableBinding),
      b ∈ extractVariableBindings env d → env b.variableId = none →
        b.variableName = unresolvablePlaceholder b.variableId ∧
          isUnresolvedPlaceholderName b.variableName = true) := by
  constructor
  · intro bindings
    exact filterMap_if_eq_map_filter
      (fun b => isUnresolvedPlaceholderName b.variableName)
      unresolvableFindingFor bindings
  · intro env d b hb hnone
    have hname := (mem_extract_resolved hb).1
    rw [resolvedVariableName, hnone] at hname
    exact ⟨hname, by rw [hname]; exact placeholder_matches b.variableId⟩

/-- Witness for C3: the `fills` binding of `boundRect` under a failing
lookup environment resolves to the placeholder and matches the pattern. -/
theorem C3_unresolvable_iff_placeholder_witness :
    (mkNormalBinding envNone "fills" "varid9999"
        ∈ extractVariableBindings envNone boundRect) ∧
      mkNormalBinding envNone "fills" "varid9999" ∈
          extractVariableBindings envNone boundRect →
        (mkNormalBinding envNone "fills" "varid9999").variableName =
            unresolvablePlaceholder "varid9999" ∧
          isUnresolvedPlaceholderName
              (mkNormalBinding envNone "fills" "varid9999").variableName
            = true := by
  intro h
  exact C3_unresolvable_iff_placeholder.2 envNone boundRect _ h.1 rfl

/-! ## C5 — node classification -/

/-- C5: a processed node classifies as NO_VARIABLES exactly when its
extracted binding list is empty and as USES_VARIABLES_LOCAL otherwise; the
GLOBAL and MIXED classifications are never produced, and
`hasGlobalVariables` is always `false`. -/
theorem C5_classification_local_or_none :
    ∀ (env : VarEnv) (p : NodeData × List NodeData),
      ((processNode env p).classification = .NO_VARIABLES ↔
        (processNode env p).variableBindings = []) ∧
      ((processNode env p).classification = .USES_VARIABLES_LOCAL ↔
        (processNode env p).variableBindings ≠ []) ∧
      ((processNode env p).classification = .NO_VARIABLES ∨
        (processNode env p).classification = .USES_VARIABLES_LOCAL) ∧
      (processNode env p).hasGlobalVariables = false := by
  intro env p
  by_cases h : extractVariableBindings env p.1 = [] <;>
    simp [processNode, classifyNode, analyzeVariableTypes, h,
      List.length_eq_zero]

/-! ## C7 — jump-to-node -/

/-- C7: for an unresolvable node id, `jumpToNode` posts exactly one
`node-jumped` response with "Unknown" placeholders and leaves the selection
unchanged; for a resolvable id it selects exactly that node and posts one
response carrying its name and type. -/
theorem C7_jumpToNode_behavior :
    ∀ (nodeEnv : NodeEnv) (st : PluginState) (nodeId : String),
      (nodeEnv nodeId = none →
        jumpToNode nodeEnv st nodeId =
          (st, [{ type := "node-jumped", nodeName := "Unknown",
                  nodeType := "Unknown" }])) ∧
      (∀ n, nodeEnv nodeId = some n →
        jumpToNode nodeEnv st nodeId =
          ({ selection := [n] },
           [{ type := "node-jumped", nodeName := n.data.name,
              nodeType := n.data.type }])) := by
  intro nodeEnv st nodeId
  constructor
  · intro h
    unfold jumpToNode
    rw [h]
  · intro n h
    unfold jumpToNode
    rw [h]

/-- A one-node environment for the jump demo. -/
def jumpDemoEnv : NodeEnv :=
  fun i => if i = "n1" then some (leafNode boundRect) else none

/-- Witness for C7: both branches at concrete inputs. -/
theorem C7_jumpToNode_behavior_witness :
    jumpToNode jumpDemoEnv { selection := [] } "missing" =
      ({ selection := [] },
       [{ type := "node-jumped", nodeName := "Unknown",
          nodeType := "Unknown" }]) ∧
    jumpToNode jumpDemoEnv { selection := [] } "n1" =
      ({ selection := [leafNode boundRect] },
       [{ type := "node-jumped", nodeName := "X",
          nodeType := "RECTANGLE" }]) :=
  ⟨(C7_jumpToNode_behavior jumpDemoEnv { selection := [] } "missing").1 rfl,
   (C7_jumpToNode_behavior jumpDemoEnv { selection := [] } "n1").2
      (leafNode boundRect) rfl⟩

/-! ## C4 — finding node ids -/

/-- C4 (code-bug evidence): audited at the concrete rectangle `boundRect`
(id "n1") whose single `fills` binding cannot be resolved, `processNode`
emits exactly one finding — an UnresolvableVariable finding — and its
`nodeId` is the empty string, not "n1": `checkUnresolvableVariables` writes
`nodeId: ""` with the comment `// Will be set by caller`, but
`applyLintRules` never sets it. -/
theorem C4_unresolvable_nodeId_is_empty :
    ((processNode envNone (boundRect, [])).lintFindings).map
        (fun f => (f.nodeId, f.rule)) = [("", .UnresolvableVariable)] ∧
      boundRect.id = "n1" := by
  exact ⟨by decide, rfl⟩

/-! ## C9 — mixed-text rule -/

/-- Of all rules applied by `applyLintRules`, only `checkMixedText` (run on
TEXT nodes) produces MixedText findings. -/
lemma filter_mixed_applyLintRules (d : NodeData) (bs : List VariableBinding) :
    (applyLintRules d bs).filter (fun f => f.rule == .MixedText) =
      if d.type = "TEXT" then checkMixedText d bs else [] := by
  unfold applyLintRules
  rw [List.filter_append, List.filter_append, List.filter_append,
    List.filter_append]
  have h1 : (if bs.length = 0 then [noVariablesFinding d] else []).filter
      (fun f => f.rule == .MixedText) = [] := by
    split <;> simp [noVariablesFinding]
  have h2 : (checkStyleConflicts d bs).filter
      (fun f => f.rule == .MixedText) = [] := by
    rw [List.filter_eq_nil_iff]
    intro f hf
    rw [(mem_checkStyleConflicts hf).2]
    decide
  have h3 : (if d.type = "FRAME" then checkMagicNumbers d bs else []).filter
      (fun f => f.rule == .MixedText) = [] := by
    split
    · rw [List.filter_eq_nil_iff]
      intro f hf
      rw [(mem_checkMagicNumbers hf).2]
      decide
    · rfl
  have h4 : (checkUnresolvableVariables bs).filter
      (fun f => f.rule == .MixedText) = [] := by
    rw [List.filter_eq_nil_iff]
    intro f hf
    rw [(mem_checkUnresolvableVariables hf).2]
    decide
  have h5 : (if d.type = "TEXT" then checkMixedText d bs else []).filter
      (fun f => f.rule == .MixedText) =
      if d.type = "TEXT" then checkMixedText d bs else [] := by
    split
    · rw [List.filter_eq_self]
      intro f hf
      rw [mem_checkMixedText hf]
      rfl
    · rfl
  rw [h1, h2, h3, h4, h5]
  simp

/-- C9 (as amended): for a TEXT node with non-empty characters, the audit
engine emits exactly one MixedText finding when, among the fixed probe set
(fontSize, fontFamily, fontWeight, fills), some property is bound and some
is not, and none otherwise; a TEXT node with empty characters never yields a
MixedText finding. -/
theorem C9_mixed_text_probe :
    ∀ (env : VarEnv) (d : NodeData), d.type = "TEXT" →
      (d.characters ≠ "" →
        (applyLintRules d (extractVariableBindings env d)).filter
            (fun f => f.rule == .MixedText) =
          (if textProbeProperties.any (fun p =>
                ((extractVariableBindings env d).map
                  (·.property)).contains p) &&
              textProbeProperties.any (fun p =>
                !((extractVariableBindings env d).map
                  (·.property)).contains p) then
            [mixedTextFinding d]
          else [])) ∧
      (d.characters = "" →
        (applyLintRules d (extractVariableBindings env d)).filter
          (fun f => f.rule == .MixedText) = []) := by
  intro env d htype
  rw [filter_mixed_applyLintRules, if_pos htype]
  constructor
  · intro hne
    unfold checkMixedText
    rw [if_pos hne]
  · intro he
    unfold checkMixedText
    rw [if_neg (by simp [he])]

/-- A TEXT node with empty characters but a bound `fontSize` (and unbound
probe properties): the probe condition holds, yet no MixedText finding is
emitted. -/
def textEmptyMixed : NodeData :=
  { baseData with
    id := "t0"
    type := "TEXT"
    boundVariables := [("fontSize", .single "v1")] }

/-- Counterexample to C9 as stated: `textEmptyMixed` has a bound and an
unbound probe property, yet the audit engine emits no MixedText finding,
because its `characters` string is empty. -/
theorem C9_mixed_text_probe_counterexample :
    textEmptyMixed.type = "TEXT" ∧
    textProbeProperties.any (fun p =>
        ((extractVariableBindings envNone textEmptyMixed).map
          (·.property)).contains p) = true ∧
    textProbeProperties.any (fun p =>
        !((extractVariableBindings envNone textEmptyMixed).map
          (·.property)).contains p) = true ∧
    (applyLintRules textEmptyMixed
        (extractVariableBindings envNone textEmptyMixed)).filter
      (fun f => f.rule == .MixedText) = [] := by
  decide

/-- Witness for C9 at a TEXT node with non-empty characters and a mixed
probe set. -/
def textMixed : NodeData :=
  { textEmptyMixed with
    id := "t1"
    characters := "hello" }

theorem C9_mixed_text_probe_witness :
    textMixed.type = "TEXT" ∧ textMixed.characters ≠ "" ∧
    (applyLintRules textMixed
        (extractVariableBindings envNone textMixed)).filter
      (fun f => f.rule == .MixedText) =
      (if textProbeProperties.any (fun p =>
            ((extractVariableBindings envNone textMixed).map
              (·.property)).contains p) &&
          textProbeProperties.any (fun p =>
            !((extractVariableBindings envNone textMixed).map
              (·.property)).contains p) then
        [mixedTextFinding textMixed]
      else []) :=
  ⟨rfl, by decide,
    ((C9_mixed_text_probe envNone textMixed rfl).1 (by decide))⟩

/-! ## C2 — coverage percentage -/

/-- Definitional reading of the coverage formula on an audit result. -/
lemma auditResolved_coverage_def (env : VarEnv) (c : SceneNode) :
    (auditResolved env c).coveragePercentage =
      if 0 < (auditResolved env c).summary.totalAuditableNodes then
        ((auditResolved env c).summary.withVariablesCount : ℚ) /
            ((auditResolved env c).summary.totalAuditableNodes : ℚ) * 100
      else 0 := rfl

/-- In every audit summary the with-variables count is bounded by the node
total. -/
lemma auditResolved_with_le_total (env : VarEnv) (c : SceneNode) :
    (auditResolved env c).summary.withVariablesCount ≤
      (auditResolved env c).summary.totalAuditableNodes :=
  List.length_filter_le _ _

/-- The coverage facts, stated on `auditResolved`. -/
lemma auditResolved_coverage_facts (env : VarEnv) (c : SceneNode) :
    (auditResolved env c).coveragePercentage =
      (if 0 < (auditResolved env c).summary.totalAuditableNodes then
        ((auditResolved env c).summary.withVariablesCount : ℚ) /
            ((auditResolved env c).summary.totalAuditableNodes : ℚ) * 100
      else 0) ∧
    0 ≤ (auditResolved env c).coveragePercentage ∧
    (auditResolved env c).coveragePercentage ≤ 100 ∧
    ((auditResolved env c).coveragePercentage = 0 ↔
      (auditResolved env c).summary.withVariablesCount = 0) := by
  set w := (auditResolved env c).summary.withVariablesCount with hw
  set t := (auditResolved env c).summary.totalAuditableNodes with ht
  have hle : w ≤ t := auditResolved_with_le_total env c
  rw [auditResolved_coverage_def, ← hw, ← ht]
  by_cases hpos : 0 < t
  · have htne : (t : ℚ) ≠ 0 := by positivity
    rw [if_pos hpos]
    refine ⟨rfl, by positivity, ?_, ?_⟩
    · have hdiv : (w : ℚ) / (t : ℚ) ≤ 1 := by
        rw [div_le_one (by positivity)]
        exact_mod_cast hle
      calc (w : ℚ) / (t : ℚ) * 100 ≤ 1 * 100 := by
            exact mul_le_mul_of_nonneg_right hdiv (by norm_num)
        _ = 100 := by norm_num
    · constructor
      · intro h0
        have : (w : ℚ) = 0 := by
          rcases mul_eq_zero.mp h0 with h | h
          · rcases div_eq_zero_iff.mp h with h | h
            · exact h
            · exact absurd h htne
          · norm_num at h
        exact_mod_cast this
      · intro h0
        rw [h0]
        norm_num
  · have ht0 : t = 0 := by omega
    have hw0 : w = 0 := by omega
    rw [if_neg hpos]
    exact ⟨rfl, le_refl 0, by norm_num, by simp [hw0]⟩

/-- A non-null `auditContainer` result comes from `auditResolved` on the
resolved container. -/
lemma auditContainer_eq_some {nodeEnv : NodeEnv} {env : VarEnv}
    {cid : String} {res : AuditResult}
    (h : auditContainer nodeEnv env cid = some res) :
    ∃ c, nodeEnv cid = some c ∧ res = auditResolved env c := by
  unfold auditContainer at h
  revert h
  cases hn : nodeEnv cid with
  | none => intro h; exact absurd h (by simp)
  | some c =>
    intro h
    have h2 : (if c.data.type = "SECTION" ∨ c.data.type = "FRAME"
        then some (auditResolved env c) else none) = some res := h
    split at h2
    · exact ⟨c, rfl, (Option.some.inj h2).symm⟩
    · simp at h2

/-- C2 (as amended): for every non-null audit result, the coverage
percentage equals `withVariablesCount / totalAuditableNodes × 100` when
there are auditable nodes and `0` otherwise, always lies in `[0, 100]`, and
equals `0` exactly when `withVariablesCount = 0` (in particular when there
are zero auditable nodes — but also when auditable nodes exist and none
carries a binding). -/
theorem C2_coverage_range :
    ∀ (nodeEnv : NodeEnv) (env : VarEnv) (cid : String) (res : AuditResult),
      auditContainer nodeEnv env cid = some res →
        (res.coveragePercentage =
          (if 0 < res.summary.totalAuditableNodes then
            (res.summary.withVariablesCount : ℚ) /
                (res.summary.totalAuditableNodes : ℚ) * 100
          else 0)) ∧
        0 ≤ res.coveragePercentage ∧
        res.coveragePercentage ≤ 100 ∧
        (res.coveragePercentage = 0 ↔
          res.summary.withVariablesCount = 0) := by
  intro nodeEnv env cid res h
  obtain ⟨c, -, rfl⟩ := auditContainer_eq_some h
  exact auditResolved_coverage_facts env c

/-- A frame with a single auditable, binding-free node (itself). -/
def emptyFrame : SceneNode :=
  .mk { baseData with
    id := "f0"
    type := "FRAME" } .nil

/-- Node environment resolving only `emptyFrame`. -/
def emptyFrameEnv : NodeEnv :=
  fun i => if i = "f0" then some emptyFrame else none

/-- Counterexample to C2 as stated: auditing `emptyFrame` yields one
auditable node but coverage `0`, so coverage `0` does not imply zero
auditable nodes. -/
theorem C2_coverage_range_counterexample :
    auditContainer emptyFrameEnv envNone "f0" =
      some (auditResolved envNone emptyFrame) ∧
    (auditResolved envNone emptyFrame).summary.totalAuditableNodes = 1 ∧
    (auditResolved envNone emptyFrame).coveragePercentage = 0 := by
  refine ⟨rfl, by decide, ?_⟩
  have h1 : (auditResolved envNone emptyFrame).summary.withVariablesCount
      = 0 := by decide
  have h2 : (auditResolved envNone emptyFrame).summary.totalAuditableNodes
      = 1 := by decide
  rw [auditResolved_coverage_def, h1, h2]
  norm_num

/-- Witness for C2 at the concrete container `emptyFrame`. -/
theorem C2_coverage_range_witness :
    auditContainer emptyFrameEnv envNone "f0" =
      some (auditResolved envNone emptyFrame) ∧
    (0 ≤ (auditResolved envNone emptyFrame).coveragePercentage ∧
      (auditResolved envNone emptyFrame).coveragePercentage ≤ 100) :=
  ⟨rfl,
    ⟨(C2_coverage_range emptyFrameEnv envNone "f0"
        (auditResolved envNone emptyFrame) rfl).2.1,
     (C2_coverage_range emptyFrameEnv envNone "f0"
        (auditResolved envNone emptyFrame) rfl).2.2.1⟩⟩

/-! ## C6 — container resolution -/

/-- C6: `analyzeContainerContent` and `auditContainer` return `null` exactly
when the identifier does not resolve or resolves to a node that is neither a
SECTION nor a FRAME (wrong kind handled like not-found); being total Lean
functions over the embedded model, they always return a value instead of
raising. -/
theorem C6_null_iff_unresolved_or_wrong_kind :
    ∀ (nodeEnv : NodeEnv) (getMain : MainCompEnv) (env : VarEnv)
      (cid : String),
      (nodeEnv cid = none →
        analyzeContainerContent nodeEnv getMain env cid = none ∧
          auditContainer nodeEnv env cid = none) ∧
      (∀ c, nodeEnv cid = some c →
        ((analyzeContainerContent nodeEnv getMain env cid = none ↔
            ¬(c.data.type = "SECTION" ∨ c.data.type = "FRAME")) ∧
          (auditContainer nodeEnv env cid = none ↔
            ¬(c.data.type = "SECTION" ∨ c.data.type = "FRAME")))) := by
  intro nodeEnv getMain env cid
  constructor
  · intro h
    constructor
    · unfold analyzeContainerContent
      rw [h]
    · unfold auditContainer
      rw [h]
  · intro c h
    constructor
    · unfold analyzeContainerContent
      rw [h]
      by_cases hc : c.data.type = "SECTION" ∨ c.data.type = "FRAME" <;>
        simp [hc]
    · unfold auditContainer
      rw [h]
      by_cases hc : c.data.type = "SECTION" ∨ c.data.type = "FRAME" <;>
        simp [hc]

/-- Environment with a frame under "f0" and a rectangle under "r1". -/
def mixedNodeEnv : NodeEnv :=
  fun i =>
    if i = "f0" then some emptyFrame
    else if i = "r1" then some (leafNode boundRect) else none

/-- Witness for C6: an unresolved id yields `none` from both entry points,
and a resolved wrong-kind node (a RECTANGLE) does too. -/
theorem C6_null_iff_unresolved_or_wrong_kind_witness :
    (analyzeContainerContent mixedNodeEnv mainNone envNone "nope" = none ∧
      auditContainer mixedNodeEnv envNone "nope" = none) ∧
    auditContainer mixedNodeEnv envNone "r1" = none ∧
    analyzeContainerContent mixedNodeEnv mainNone envNone "r1" = none :=
  ⟨(C6_null_iff_unresolved_or_wrong_kind mixedNodeEnv mainNone envNone
      "nope").1 rfl,
   ((C6_null_iff_unresolved_or_wrong_kind mixedNodeEnv mainNone envNone
      "r1").2 (leafNode boundRect) rfl).2.mpr (by decide),
   ((C6_null_iff_unresolved_or_wrong_kind mixedNodeEnv mainNone envNone
      "r1").2 (leafNode boundRect) rfl).1.mpr (by decide)⟩

/-! ## C1 — the 50-node audit cap -/

lemma auditResolved_withVariables_def (env : VarEnv) (c : SceneNode) :
    (auditResolved env c).withVariables =
      (auditProcessedNodes env c).filter
        (fun n => !(n.classification == .NO_VARIABLES)) := rfl

lemma auditResolved_withoutVariables_def (env : VarEnv) (c : SceneNode) :
    (auditResolved env c).withoutVariables =
      (auditProcessedNodes env c).filter
        (fun n => n.classification == .NO_VARIABLES) := rfl

lemma auditResolved_lintFindings_def (env : VarEnv) (c : SceneNode) :
    (auditResolved env c).lintFindings =
      ((auditProcessedNodes env c).map (·.lintFindings)).flatten := rfl

lemma processNode_id (env : VarEnv) (p : NodeData × List NodeData) :
    (processNode env p).id = p.1.id := rfl

lemma processNode_lintFindings (env : VarEnv) (p : NodeData × List NodeData) :
    (processNode env p).lintFindings =
      applyLintRules p.1 (extractVariableBindings env p.1) := rfl

/-- C1: the audit engine processes exactly the first 50 collected eligible
nodes in traversal order — the summary total is `min length 50`, the
processed list is the mapped 50-prefix — and a collected node beyond the
first 50 (whose id does not collide with a retained node's id) appears in
neither partition nor, unless its id is the empty string, in any lint
finding. -/
theorem C1_audit_node_cap :
    ∀ (env : VarEnv) (c : SceneNode),
      (auditResolved env c).summary.totalAuditableNodes =
        min (collectAuditableNodes c).length 50 ∧
      auditProcessedNodes env c =
        ((collectAuditableNodes c).take 50).map (processNode env) ∧
      ∀ p ∈ (collectAuditableNodes c).drop 50,
        p.1.id ∉ ((collectAuditableNodes c).take 50).map (fun q => q.1.id) →
          (∀ a ∈ (auditResolved env c).withVariables, a.id ≠ p.1.id) ∧
          (∀ a ∈ (auditResolved env c).withoutVariables, a.id ≠ p.1.id) ∧
          (p.1.id ≠ "" →
            ∀ f ∈ (auditResolved env c).lintFindings,
              f.nodeId ≠ p.1.id) := by
  intro env c
  refine ⟨?_, rfl, ?_⟩
  · have h : (auditResolved env c).summary.totalAuditableNodes =
        (auditProcessedNodes env c).length := rfl
    rw [h, auditProcessedNodes, List.length_map, List.length_take,
      Nat.min_comm]
  · intro p _hp hid
    have hmem50 : ∀ a ∈ auditProcessedNodes env c, a.id ≠ p.1.id := by
      intro a ha
      rw [auditProcessedNodes] at ha
      obtain ⟨q, hq, rfl⟩ := List.mem_map.mp ha
      intro hEq
      rw [processNode_id] at hEq
      exact hid (List.mem_map.mpr ⟨q, hq, hEq⟩)
    refine ⟨?_, ?_, ?_⟩
    · intro a ha
      exact hmem50 a
        (List.mem_of_mem_filter (auditResolved_withVariables_def env c ▸ ha))
    · intro a ha
      exact hmem50 a
        (List.mem_of_mem_filter
          (auditResolved_withoutVariables_def env c ▸ ha))
    · intro hne f hf
      rw [auditResolved_lintFindings_def] at hf
      obtain ⟨l, hl, hfl⟩ := List.mem_flatten.mp hf
      obtain ⟨a, ha, rfl⟩ := List.mem_map.mp hl
      rw [auditProcessedNodes] at ha
      obtain ⟨q, hq, rfl⟩ := List.mem_map.mp ha
      rw [processNode_lintFindings] at hfl
      rcases mem_applyLintRules_nodeId hfl with hcase | hcase
      · intro hEq
        rw [hcase] at hEq
        exact hid (List.mem_map.mpr ⟨q, hq, hEq⟩)
      · intro hEq
        rw [hcase] at hEq
        exact hne hEq.symm

/-- A frame with 74 rectangle children: 75 eligible nodes in all. -/
def frame75 : SceneNode :=
  .mk { baseData with
    id := "f"
    type := "FRAME" }
    (SceneNodeList.ofList ((List.range 74).map
      (fun i => leafNode { baseData with id := "r" ++ Nat.repr i })))

/-- The 51st collected node of `frame75` (the 50th rectangle, id "r49"),
with its ancestor chain. -/
def beyondCapPair : NodeData × List NodeData :=
  ({ baseData with id := "r49" },
   [{ baseData with
      id := "f"
      type := "FRAME" }])

/-- Witness for C1: `frame75` collects 75 eligible nodes, the audit keeps
exactly 50, and the 51st node appears nowhere in the output. -/
theorem C1_audit_node_cap_witness :
    ((collectAuditableNodes frame75).length = 75 ∧
      (auditResolved envNone frame75).summary.totalAuditableNodes = 50 ∧
      beyondCapPair ∈ (collectAuditableNodes frame75).drop 50) ∧
    ((∀ a ∈ (auditResolved envNone frame75).withVariables,
        a.id ≠ beyondCapPair.1.id) ∧
      (∀ a ∈ (auditResolved envNone frame75).withoutVariables,
        a.id ≠ beyondCapPair.1.id) ∧
      (beyondCapPair.1.id ≠ "" →
        ∀ f ∈ (auditResolved envNone frame75).lintFindings,
          f.nodeId ≠ beyondCapPair.1.id)) :=
  ⟨⟨by decide, by decide, by decide⟩,
   (C1_audit_node_cap envNone frame75).2.2 beyondCapPair (by decide)
     (by decide)⟩

/-! ## C10 — the container frame itself -/

lemma analyzeNode_id (getMain : MainCompEnv) (env : VarEnv) (d : NodeData) :
    (analyzeNode getMain env d).id = d.id := rfl

/-- C10 (as amended): a FRAME container whose own `visible` flag is `true`
is collected by the audit engine as the first auditable node (so its
processed record heads the audit's node list), whereas
`analyzeContainerContent` enumerates only strict descendants: no per-frame
`NodeInfo` carries the container's id (assuming no descendant reuses that
id). -/
theorem C10_frame_container_first_vs_descendants :
    ∀ (getMain : MainCompEnv) (env : VarEnv) (c : SceneNode),
      c.data.type = "FRAME" → c.data.visible = true →
      (collectAuditableNodes c).head? = some (c.data, []) ∧
      (auditProcessedNodes env c).head? =
        some (processNode env (c.data, [])) ∧
      (c.data.id ∉ (findAllInFrame c).map (fun q => q.1.id) →
        ∀ fi ∈ (analyzeResolved getMain env c).frames,
          ∀ ni ∈ fi.nodes, ni.id ≠ c.data.id) := by
  intro getMain env c htype hvis
  obtain ⟨d, cs⟩ := c
  simp only [SceneNode.data] at htype hvis
  have hne : ¬ d.type = "SECTION" := by rw [htype]; decide
  have helig : auditEligible d [] = true := by
    unfold auditEligible
    rw [htype, hvis]
    decide
  have hcollect : collectAuditableNodes (.mk d cs) =
      (d, []) :: collectGoList [] [d] cs := by
    unfold collectAuditableNodes collectAuditRoot
    simp only [SceneNode.data]
    rw [if_neg hne]
    show ((if auditEligible d [] = true then [(d, [])] else []) ++
        collectGoList [] [d] cs) = _
    rw [helig]
    rfl
  refine ⟨?_, ?_, ?_⟩
  · rw [hcollect]
    rfl
  · show (((collectAuditableNodes (.mk d cs)).take 50).map
        (processNode env)).head? = _
    rw [hcollect]
    rfl
  · intro hnot fi hfi ni hni
    have hframes : (analyzeResolved getMain env (.mk d cs)).frames =
        [analyzeFrame getMain env (.mk d cs)] := by
      simp [analyzeResolved, analyzeFrameChildren, SceneNode.data, hne]
    rw [hframes, List.mem_singleton] at hfi
    subst hfi
    have hnodes : (analyzeFrame getMain env (.mk d cs)).nodes =
        ((findAllInFrame (.mk d cs)).filter
            (fun p => effectivelyVisible p && !nestedComponentExcluded p)).map
          (fun p => analyzeNode getMain env p.1) := rfl
    rw [hnodes] at hni
    obtain ⟨q, hq, rfl⟩ := List.mem_map.mp hni
    rw [analyzeNode_id]
    intro hEq
    exact hnot (List.mem_map.mpr ⟨q, List.mem_of_mem_filter hq, hEq⟩)

/-- A hidden FRAME container with one visible rectangle child. -/
def hiddenFrame : SceneNode :=
  .mk { baseData with
    id := "hf"
    type := "FRAME"
    visible := false }
    (.cons (leafNode { baseData with id := "hc" }) .nil)

/-- Counterexample to C10 as stated: for the hidden FRAME container, the
audit collects and processes only the child — the container frame is not
included at all, let alone first (while its children still are, because
their visibility walk stops at the frame root). -/
theorem C10_frame_container_first_counterexample :
    hiddenFrame.data.type = "FRAME" ∧
    (collectAuditableNodes hiddenFrame).map (fun p => p.1.id) = ["hc"] ∧
    (auditProcessedNodes envNone hiddenFrame).map (fun a => a.id) = ["hc"] :=
  ⟨rfl, by decide, by decide⟩

/-- A visible FRAME container with one rectangle child. -/
def visibleFrame : SceneNode :=
  .mk { baseData with
    id := "vf"
    type := "FRAME" }
    (.cons (leafNode { baseData with id := "vc" }) .nil)

/-- Witness for C10 at `visibleFrame`. -/
theorem C10_frame_container_first_witness :
    (visibleFrame.data.type = "FRAME" ∧ visibleFrame.data.visible = true ∧
      visibleFrame.data.id ∉
        (findAllInFrame visibleFrame).map (fun q => q.1.id)) ∧
    ((collectAuditableNodes visibleFrame).head? =
        some (visibleFrame.data, []) ∧
      (auditProcessedNodes envNone visibleFrame).head? =
        some (processNode envNone (visibleFrame.data, [])) ∧
      ∀ fi ∈ (analyzeResolved mainNone envNone visibleFrame).frames,
        ∀ ni ∈ fi.nodes, ni.id ≠ visibleFrame.data.id) :=
  ⟨⟨rfl, rfl, by decide⟩,
   ⟨(C10_frame_container_first_vs_descendants mainNone envNone visibleFrame
        rfl rfl).1,
    (C10_frame_container_first_vs_descendants mainNone envNone visibleFrame
        rfl rfl).2.1,
    (C10_frame_container_first_vs_descendants mainNone envNone visibleFrame
        rfl rfl).2.2 (by decide)⟩⟩

/-- Witness for C5 at the concrete bound rectangle: one binding classifies
as USES_VARIABLES_LOCAL with `hasGlobalVariables = false`. -/
theorem C5_classification_local_or_none_witness :
    (processNode envNone (boundRect, [])).classification =
        .USES_VARIABLES_LOCAL ∧
      (processNode envNone (boundRect, [])).hasGlobalVariables = false :=
  ⟨(C5_classification_local_or_none envNone (boundRect, [])).2.1.mpr
      (by decide),
   (C5_classification_local_or_none envNone (boundRect, [])).2.2.2⟩
